import Mathlib

/-!
Shallow embedding of the swapchain-selection, render-loop, channel and
cursor-state logic of the Goshenite repository, together with theorems
settling the specification claims about it.

Sources embedded:
- bort/src/swapchain.rs        (choose_composite_alpha, get_first_srgb_surface_format,
                                Swapchain::new image-count and extent selection)
- src/renderer/render_manager.rs (render_frame / recreate_swapchain state machine,
                                the vulkano-based create_swapchain composite-alpha pick)
- src/renderer/vulkan_init.rs  (swapchain_properties surface-format pick)
- src/engine/main_thread.rs    (MainThreadChannels::get_events)
- src/engine/engine.rs         (Engine::stop_render_thread busy-wait)
- src/cursor_state.rs          (CursorState::set_click_state / process_frame)

Machine integers (u32) are modelled as `Nat`; the selection code performs no
arithmetic that can overflow a u32 given u32 inputs, so no explicit modulus is
needed.  Rust panics and `anyhow` errors are modelled with `Option` / `Except`.
-/

namespace Goshenite

/-! ### Composite alpha flags (ash `vk::CompositeAlphaFlagsKHR`)

The flag bits follow the Vulkan spec: OPAQUE = 0x1, PRE_MULTIPLIED = 0x2,
POST_MULTIPLIED = 0x4, INHERIT = 0x8.  A set of supported flags is a bitmask
`Nat`, and `contains` is a bit test, as in ash.  The constructor `opq` stands
for the OPAQUE flag (its natural name is reserved in Lean). -/

inductive CompositeAlpha where
  | opq
  | preMultiplied
  | postMultiplied
  | inherit
deriving DecidableEq, Repr, Fintype

/-- Bit index of each composite-alpha flag in `vk::CompositeAlphaFlagsKHR`. -/
def CompositeAlpha.bit : CompositeAlpha → Nat
  | .opq => 0
  | .preMultiplied => 1
  | .postMultiplied => 2
  | .inherit => 3

/-- `vk::CompositeAlphaFlagsKHR::contains`: bitmask test. -/
def flagsContains (flags : Nat) (ca : CompositeAlpha) : Bool :=
  flags.testBit ca.bit

/-- `u32::MAX`, the Vulkan sentinel for an undefined surface extent width. -/
def U32_MAX : Nat := 4294967295

/-- `vk::Extent2D` (width and height are u32). -/
structure Extent2D where
  width : Nat
  height : Nat
deriving DecidableEq, Repr

/-- The fields of `vk::SurfaceCapabilitiesKHR` read by the embedded code
(the remaining fields of the Vulkan struct are never inspected by it). -/
structure SurfaceCapabilities where
  min_image_count : Nat
  max_image_count : Nat
  current_extent : Extent2D
  min_image_extent : Extent2D
  max_image_extent : Extent2D
  supported_composite_alpha : Nat
deriving DecidableEq, Repr

/-- bort/src/swapchain.rs: the preference order array in `choose_composite_alpha`. -/
def composite_alpha_preference_order : List CompositeAlpha :=
  [.postMultiplied, .opq, .preMultiplied, .inherit]

/-- Index of a flag in `composite_alpha_preference_order`. -/
def prefIndex : CompositeAlpha → Nat
  | .postMultiplied => 0
  | .opq => 1
  | .preMultiplied => 2
  | .inherit => 3

/-- bort/src/swapchain.rs `choose_composite_alpha`: first flag of the preference
order supported by the surface.  `none` models the `.expect(...)` panic taken
when no flag of the order is supported. -/
def choose_composite_alpha (surface_capabilities : SurfaceCapabilities) :
    Option CompositeAlpha :=
  let supported_composite_alpha := surface_capabilities.supported_composite_alpha
  composite_alpha_preference_order.find? (fun ca => flagsContains supported_composite_alpha ca)

/-! ### The vulkano-based composite-alpha pick (src/renderer/render_manager.rs)

`create_swapchain` there picks the composite alpha with
`supported_composite_alpha.iter().max_by_key(...)` where the key ranks
PostMultiplied = 4, Inherit = 3, Opaque = 2, PreMultiplied = 1. -/

/-- The ranking closure passed to `max_by_key` in
render_manager.rs `create_swapchain`. -/
def render_manager_alpha_key : CompositeAlpha → Nat
  | .postMultiplied => 4
  | .inherit => 3
  | .opq => 2
  | .preMultiplied => 1

/-- vulkano `SupportedCompositeAlpha::iter()`: the supported flags in the
declaration order of the struct fields. -/
def supported_alpha_list (flags : Nat) : List CompositeAlpha :=
  [CompositeAlpha.opq, .preMultiplied, .postMultiplied, .inherit].filter
    (fun ca => flagsContains flags ca)

/-- Rust `Iterator::max_by_key`: maximum by key, later elements win ties;
`none` on an empty iterator. -/
def maxByKey (key : CompositeAlpha → Nat) : List CompositeAlpha → Option CompositeAlpha
  | [] => none
  | x :: xs => some (xs.foldl (fun best y => if key best ≤ key y then y else best) x)

/-- render_manager.rs `create_swapchain` composite-alpha selection; `none`
models the `.expect(...)` panic on an empty supported set. -/
def render_manager_choose_composite_alpha (surface_capabilities : SurfaceCapabilities) :
    Option CompositeAlpha :=
  maxByKey render_manager_alpha_key
    (supported_alpha_list surface_capabilities.supported_composite_alpha)

/-! ### Swapchain image count and extent (bort/src/swapchain.rs `Swapchain::new`) -/

/-- src/renderer/config_renderer.rs: `MAX_FRAMES_IN_FLIGHT` (double buffering),
used by vulkan_init.rs `swapchain_properties` as the preferred image count. -/
def MAX_FRAMES_IN_FLIGHT : Nat := 2

/-- bort/src/swapchain.rs `Swapchain::new`:
`image_count = max(min(preferred_image_count, caps.max_image_count), caps.min_image_count)`. -/
def swapchain_new_image_count (preferred_image_count : Nat)
    (surface_capabilities : SurfaceCapabilities) : Nat :=
  max (min preferred_image_count surface_capabilities.max_image_count)
    surface_capabilities.min_image_count

/-- bort/src/swapchain.rs `Swapchain::new`: the extent is the surface's current
extent, except that a current-extent width of `u32::MAX` (the Vulkan
"undefined" sentinel) selects the window's dimensions instead.  No clamping is
performed. -/
def swapchain_new_extent (surface_capabilities : SurfaceCapabilities)
    (window_dimensions : Nat × Nat) : Extent2D :=
  if surface_capabilities.current_extent.width = U32_MAX then
    { width := window_dimensions.1, height := window_dimensions.2 }
  else
    surface_capabilities.current_extent

/-- Extent selection as the specification words it (for comparison with
`swapchain_new_extent`): the current extent clamped componentwise to the
surface's reported min/max image extent, falling back to the window size when
the current extent is undefined. -/
def spec_swapchain_extent (surface_capabilities : SurfaceCapabilities)
    (window_dimensions : Nat × Nat) : Extent2D :=
  if surface_capabilities.current_extent.width = U32_MAX then
    { width := window_dimensions.1, height := window_dimensions.2 }
  else
    { width := max surface_capabilities.min_image_extent.width
        (min surface_capabilities.current_extent.width
          surface_capabilities.max_image_extent.width),
      height := max surface_capabilities.min_image_extent.height
        (min surface_capabilities.current_extent.height
          surface_capabilities.max_image_extent.height) }

/-! ### Surface formats (bort/src/swapchain.rs, src/renderer/vulkan_init.rs) -/

/-- `vk::SurfaceFormatKHR`: format and color space, as their Vulkan enum codes. -/
structure SurfaceFormatKHR where
  format : Nat
  color_space : Nat
deriving DecidableEq, Repr

/-- Modelled from the spec: `is_format_srgb` lives in bort/src/common.rs,
which is absent from the sources; the spec describes it as recognising
"sRGB-encoded" formats.  We model it as membership in the Vulkan format codes
of the uncompressed sRGB formats (R8_SRGB = 15, R8G8_SRGB = 22,
R8G8B8_SRGB = 29, B8G8R8_SRGB = 36, R8G8B8A8_SRGB = 43, B8G8R8A8_SRGB = 50,
A8B8G8R8_SRGB_PACK32 = 57). -/
def is_format_srgb (format : Nat) : Bool :=
  [15, 22, 29, 36, 43, 50, 57].contains format

/-- bort/src/swapchain.rs `get_first_srgb_surface_format`, parameterised by the
sRGB predicate: the first format satisfying the predicate, otherwise
`surface_formats[0]`.  `none` models the out-of-bounds indexing panic on an
empty list (when `find` succeeds the list is non-empty, so the eagerly
evaluated `surface_formats[0]` of the Rust source cannot panic). -/
def get_first_srgb_surface_format (srgbP : Nat → Bool)
    (surface_formats : List SurfaceFormatKHR) : Option SurfaceFormatKHR :=
  match surface_formats.find? (fun f => srgbP f.format) with
  | some f => some f
  | none => surface_formats.get? 0

/-- src/renderer/vulkan_init.rs `swapchain_properties`: the surface format used
to create the swapchain is `surface_formats[0]`, unconditionally.  `none`
models the indexing panic on an empty list. -/
def swapchain_properties_surface_format (surface_formats : List SurfaceFormatKHR) :
    Option SurfaceFormatKHR :=
  surface_formats.get? 0

/-! ### Render loop state machine (src/renderer/render_manager.rs)

`render_frame` owns a `recreate_swapchain : bool` trigger.  Its interaction
with the GPU is abstracted into the results the code branches on: the outcome
of `swapchain::acquire_next_image`, whether `Swapchain::recreate` succeeds,
and the outcome of the final fence flush.  The `FrameTrace` records which
externally visible actions the iteration performed. -/

/-- Outcome of `swapchain::acquire_next_image` as matched by `render_frame`. -/
inductive AcquireResult where
  | ok (suboptimal : Bool)
  | outOfDate
  | otherError
deriving DecidableEq, Repr

/-- Outcome of `then_signal_fence_and_flush` as matched by `render_frame`. -/
inductive FlushResult where
  | ok
  | outOfDate
  | otherError
deriving DecidableEq, Repr

/-- Externally visible actions of one `render_frame` iteration. -/
structure FrameTrace where
  recorded : Bool
  submitted : Bool
  presented : Bool
  recreate_attempted : Bool
deriving DecidableEq, Repr

/-- Result of one `render_frame` iteration: the new `recreate_swapchain`
trigger, the actions taken, and whether the call returned `Ok`. -/
structure RenderFrameOutcome where
  recreate_swapchain : Bool
  trace : FrameTrace
  ok : Bool
deriving DecidableEq, Repr

/-- render_manager.rs `RenderManager::recreate_swapchain`: on success the
trigger is unset at the end; on failure the function returns early with the
trigger left as it was.  Returns (new trigger, success). -/
def recreate_swapchain (recreateOk : Bool) (trigger : Bool) : Bool × Bool :=
  if recreateOk then (false, true) else (trigger, false)

/-- render_manager.rs `RenderManager::render_frame` control flow over the
abstracted GPU results (`recreateOk` abstracts whether `Swapchain::recreate`
succeeds whenever it is called this iteration). -/
def render_frame (trigger0 window_resize : Bool) (acquire : AcquireResult)
    (recreateOk : Bool) (flush : FlushResult) : RenderFrameOutcome :=
  let trigger := trigger0 || window_resize
  if trigger then
    let r := recreate_swapchain recreateOk trigger
    { recreate_swapchain := r.1,
      trace := { recorded := false, submitted := false, presented := false,
                 recreate_attempted := true },
      ok := r.2 }
  else
    match acquire with
    | .outOfDate =>
      let r := recreate_swapchain recreateOk true
      { recreate_swapchain := r.1,
        trace := { recorded := false, submitted := false, presented := false,
                   recreate_attempted := true },
        ok := r.2 }
    | .otherError =>
      { recreate_swapchain := trigger,
        trace := { recorded := false, submitted := false, presented := false,
                   recreate_attempted := false },
        ok := false }
    | .ok suboptimal =>
      let trigger1 := suboptimal
      let trigger2 :=
        match flush with
        | .outOfDate => true
        | _ => trigger1
      { recreate_swapchain := trigger2,
        trace := { recorded := true, submitted := true, presented := true,
                   recreate_attempted := false },
        ok := true }

/-! ### Window-event queue (src/engine/main_thread.rs)

`MainThreadChannels::get_events` drains an `mpsc` receiver with `try_recv`
until it reports `Empty`, bailing out on `Disconnected`.  The receiver state
is the list of queued events (oldest first) plus whether the sender was
dropped; `mpsc` delivers buffered events before reporting disconnection, so
`Disconnected` can only surface once the queue is empty. -/

/-- One `try_recv` step and the remaining loop, with the accumulated `events`
vector.  On success the drained events and the (always empty) remaining queue
are returned. -/
def get_events_loop {ε : Type} (senderDropped : Bool) (events : List ε) :
    List ε → Except String (List ε × List ε)
  | [] =>
    if senderDropped then .error "window thread disconnected"
    else .ok (events, [])
  | e :: rest => get_events_loop senderDropped (events ++ [e]) rest

/-- main_thread.rs `MainThreadChannels::get_events`. -/
def get_events {ε : Type} (senderDropped : Bool) (queue : List ε) :
    Except String (List ε × List ε) :=
  get_events_loop senderDropped [] queue

/-! ### Render-thread shutdown wait (src/engine/engine.rs `stop_render_thread`)

The busy-wait loop polls `render_thread_handle.is_finished()` and the elapsed
wall-clock time.  A run of the loop is abstracted as the stream of
observations the i-th poll would make; real time makes the elapsed readings
unbounded, which is the hypothesis under which the loop terminates. -/

/-- config_engine.rs: `RENDER_THREAD_WAIT_TIMEOUT_SECONDS = 2.0`;
engine.rs computes `timeout_millis = (2.0 * 1000.0) as u128 = 2000`
(the f64 product is exact). -/
def timeout_millis : Nat := 2000

/-- What one iteration of the wait loop observes. -/
structure PollObs where
  is_finished : Bool
  elapsed_millis : Nat
deriving DecidableEq, Repr

/-- Why the wait loop exited. -/
inductive StopReason where
  | quit
  | timedOut
deriving DecidableEq, Repr

/-- The loop's exit condition at poll `i`: the thread reports finished, or the
elapsed time exceeds the timeout. -/
def stopExit (obs : Nat → PollObs) (i : Nat) : Prop :=
  (obs i).is_finished = true ∨ timeout_millis < (obs i).elapsed_millis

instance (obs : Nat → PollObs) : DecidablePred (stopExit obs) := fun _ =>
  inferInstanceAs (Decidable (_ ∨ _))

/-- engine.rs `Engine::stop_render_thread` wait loop: runs until the first
poll satisfying the exit condition (which exists because elapsed time is
unbounded) and reports why it exited; the `is_finished` check comes first in
the loop body, so it decides the reason. -/
def stop_render_thread (obs : Nat → PollObs) (h : ∃ i, stopExit obs i) :
    Nat × StopReason :=
  let i := Nat.find h
  (i, if (obs i).is_finished then .quit else .timedOut)

/-! ### Cursor state (src/cursor_state.rs)

Positions are `glam::DVec2` (f64 pairs); they are modelled over `ℚ`, which is
exact for the only operations performed (subtraction and comparison with 0).
The `winit::window::Window` handle is represented by the cursor icon it is
asked to display. -/

/-- glam `DVec2`, modelled over `ℚ`. -/
structure DVec2 where
  x : ℚ
  y : ℚ
deriving DecidableEq

/-- Mouse buttons supported by the engine (cursor_state.rs `MouseButton`). -/
inductive MouseButton where
  | left
  | right
  | middle
deriving DecidableEq, Repr

/-- cursor_state.rs `MOUSE_BUTTONS`: order gives dragging priority. -/
def MOUSE_BUTTONS : List MouseButton := [.left, .right, .middle]

/-- cursor_state.rs `ButtonStates`: one flag per supported button. -/
structure ButtonStates where
  left : Bool
  right : Bool
  middle : Bool
deriving DecidableEq, Repr

/-- `ButtonStates::set`. -/
def ButtonStates.set (bs : ButtonStates) (button : MouseButton) (state : Bool) :
    ButtonStates :=
  match button with
  | .left => { bs with left := state }
  | .right => { bs with right := state }
  | .middle => { bs with middle := state }

/-- `ButtonStates::get`. -/
def ButtonStates.get (bs : ButtonStates) (button : MouseButton) : Bool :=
  match button with
  | .left => bs.left
  | .right => bs.right
  | .middle => bs.middle

/-- winit `ElementState`. -/
inductive ElementState where
  | pressed
  | released
deriving DecidableEq, Repr

/-- The winit mouse-button type as matched by `MouseButton::from_winit`. -/
inductive WinitMouseButton where
  | left
  | right
  | middle
  | other (code : Nat)
deriving DecidableEq, Repr

/-- cursor_state.rs `MouseButton::from_winit`. -/
def MouseButton.from_winit : WinitMouseButton → Except String MouseButton
  | .left => .ok .left
  | .right => .ok .right
  | .middle => .ok .middle
  | .other code =>
    .error ("attempted to index unsupported mouse button code: " ++ toString code)

/-- The cursor icons set by cursor_state.rs (`CursorIcon::Default` /
`CursorIcon::Grabbing`). -/
inductive CursorIcon where
  | defaultIcon
  | grabbing
deriving DecidableEq, Repr

/-- cursor_state.rs `CursorState`; the `window` handle is modelled by the icon
set on it. -/
structure CursorState where
  in_window : Bool
  position : DVec2
  position_previous : DVec2
  position_frame_change : DVec2
  is_pressed : ButtonStates
  is_pressed_previous : ButtonStates
  which_dragging : Option MouseButton
  cursor_icon : CursorIcon

/-- cursor_state.rs `CursorState::set_click_state`: the button is recorded as
pressed only when the cursor has not been captured (e.g. by the gui) and the
event state is `Pressed`; an unsupported winit button is only logged. -/
def CursorState.set_click_state (st : CursorState) (winit_button : WinitMouseButton)
    (state : ElementState) (cursor_captured : Bool) : CursorState :=
  match MouseButton.from_winit winit_button with
  | .ok button =>
    { st with is_pressed :=
        st.is_pressed.set button (!cursor_captured && (state == ElementState.pressed)) }
  | .error _e => st

/-- The `for button in MOUSE_BUTTONS { ... break }` loop in `process_frame`:
sets `which_dragging` to the first listed button held in both this and the
previous frame, provided the cursor moved. -/
def CursorState.findDragLoop (st : CursorState) (has_moved : Bool) :
    List MouseButton → CursorState
  | [] => st
  | button :: rest =>
    if st.is_pressed.get button && st.is_pressed_previous.get button && has_moved then
      { st with which_dragging := some button, cursor_icon := .grabbing }
    else
      st.findDragLoop has_moved rest

/-- cursor_state.rs `CursorState::process_frame`. -/
def CursorState.process_frame (st : CursorState) : CursorState :=
  let position_frame_change : DVec2 :=
    ⟨st.position.x - st.position_previous.x, st.position.y - st.position_previous.y⟩
  let has_moved := position_frame_change.x != 0 && position_frame_change.y != 0
  let st1 := { st with
    position_frame_change := position_frame_change,
    position_previous := st.position }
  let st2 :=
    match st1.which_dragging with
    | some dragging_button =>
      if !(st1.is_pressed.get dragging_button) then
        { st1 with which_dragging := none, cursor_icon := .defaultIcon }
      else
        st1
    | none => st1.findDragLoop has_moved MOUSE_BUTTONS
  { st2 with is_pressed_previous := st2.is_pressed }

/-! ## Theorems -/

/-- Surface capabilities reporting composite-alpha support for exactly
{OPAQUE, INHERIT} (bitmask 0x9); exhibits the divergence between the two
composite-alpha selection paths. -/
def capsOpqInherit : SurfaceCapabilities :=
  { min_image_count := 2, max_image_count := 8,
    current_extent := ⟨640, 480⟩,
    min_image_extent := ⟨1, 1⟩,
    max_image_extent := ⟨4096, 4096⟩,
    supported_composite_alpha := 9 }

/-- Claim C1, counterexample: on a surface supporting exactly
{OPAQUE, INHERIT}, the vulkano-based `create_swapchain`
(src/renderer/render_manager.rs) picks INHERIT, while the first supported flag
of the claimed preference order POST_MULTIPLIED, OPAQUE, PRE_MULTIPLIED,
INHERIT — and what the ash-based `choose_composite_alpha` returns — is OPAQUE.
The claim, quantified over every surface-capability report and both cited
selection sites, is therefore false. -/
theorem render_manager_composite_alpha_order_differs :
    choose_composite_alpha capsOpqInherit = some CompositeAlpha.opq ∧
    render_manager_choose_composite_alpha capsOpqInherit = some CompositeAlpha.inherit ∧
    CompositeAlpha.inherit ≠ CompositeAlpha.opq := by
  decide

/-- Claim C1 (amended): for every surface-capability report,
`choose_composite_alpha` (bort/src/swapchain.rs) returns the first flag of the
preference order POST_MULTIPLIED, OPAQUE, PRE_MULTIPLIED, INHERIT that the
surface supports and fails fast (`none`, modelling the panic) exactly when none
of the four is supported; the vulkano-based `create_swapchain`
(src/renderer/render_manager.rs) instead returns a supported flag of maximal
rank POST_MULTIPLIED > INHERIT > OPAQUE > PRE_MULTIPLIED, likewise failing
fast exactly when none is supported. -/
theorem composite_alpha_selection_characterization (caps : SurfaceCapabilities) :
    (choose_composite_alpha caps = none ↔
      ∀ ca : CompositeAlpha, flagsContains caps.supported_composite_alpha ca = false) ∧
    (∀ ca : CompositeAlpha, choose_composite_alpha caps = some ca →
      flagsContains caps.supported_composite_alpha ca = true ∧
      ∀ ca2 : CompositeAlpha, prefIndex ca2 < prefIndex ca →
        flagsContains caps.supported_composite_alpha ca2 = false) ∧
    (render_manager_choose_composite_alpha caps = none ↔
      ∀ ca : CompositeAlpha, flagsContains caps.supported_composite_alpha ca = false) ∧
    (∀ ca : CompositeAlpha, render_manager_choose_composite_alpha caps = some ca →
      flagsContains caps.supported_composite_alpha ca = true ∧
      ∀ ca2 : CompositeAlpha, flagsContains caps.supported_composite_alpha ca2 = true →
        render_manager_alpha_key ca2 ≤ render_manager_alpha_key ca) := by
  have hAll : ∀ ca : CompositeAlpha,
      flagsContains caps.supported_composite_alpha ca =
        (match ca with
         | .opq => caps.supported_composite_alpha.testBit 0
         | .preMultiplied => caps.supported_composite_alpha.testBit 1
         | .postMultiplied => caps.supported_composite_alpha.testBit 2
         | .inherit => caps.supported_composite_alpha.testBit 3) := by
    intro ca
    cases ca <;> rfl
  simp only [choose_composite_alpha, render_manager_choose_composite_alpha,
    supported_alpha_list, hAll]
  cases h0 : caps.supported_composite_alpha.testBit 0 <;>
    cases h1 : caps.supported_composite_alpha.testBit 1 <;>
      cases h2 : caps.supported_composite_alpha.testBit 2 <;>
        cases h3 : caps.supported_composite_alpha.testBit 3 <;>
          decide

/-- Claim C1, witness: the characterization applied to the concrete
capabilities `capsOpqInherit` (OPAQUE is supported there). -/
theorem composite_alpha_selection_instance :
    flagsContains capsOpqInherit.supported_composite_alpha CompositeAlpha.opq = true :=
  ((composite_alpha_selection_characterization capsOpqInherit).2.1
    CompositeAlpha.opq (by decide)).1

/-- Surface capabilities whose defined current extent (100 × 100) lies below
the reported minimum image extent (200 × 200). -/
def capsSmallCurrent : SurfaceCapabilities :=
  { min_image_count := 2, max_image_count := 8,
    current_extent := ⟨100, 100⟩,
    min_image_extent := ⟨200, 200⟩,
    max_image_extent := ⟨300, 300⟩,
    supported_composite_alpha := 1 }

/-- Claim C2, counterexample: with a defined current extent of 100 × 100 and a
reported min/max image extent of 200 × 200 / 300 × 300, `Swapchain::new` uses
100 × 100 unchanged, while the claimed clamped extent would be 200 × 200.  The
code performs no clamping. -/
theorem swapchain_extent_not_clamped :
    swapchain_new_extent capsSmallCurrent (64, 64) = ⟨100, 100⟩ ∧
    spec_swapchain_extent capsSmallCurrent (64, 64) = ⟨200, 200⟩ ∧
    swapchain_new_extent capsSmallCurrent (64, 64) ≠
      spec_swapchain_extent capsSmallCurrent (64, 64) := by
  decide

/-- Claim C2 (amended): the swapchain extent chosen at creation is the
surface's current extent used as-is — it is not clamped to the reported
min/max image extent, on which it does not depend at all — and the window's
size is used exactly when the surface reports an undefined current extent
(width = `u32::MAX`). -/
theorem swapchain_extent_characterization (caps : SurfaceCapabilities)
    (win : Nat × Nat) :
    (caps.current_extent.width = U32_MAX →
      swapchain_new_extent caps win = ⟨win.1, win.2⟩) ∧
    (caps.current_extent.width ≠ U32_MAX →
      swapchain_new_extent caps win = caps.current_extent) ∧
    (∀ lo hi : Extent2D,
      swapchain_new_extent
        { caps with min_image_extent := lo, max_image_extent := hi } win =
        swapchain_new_extent caps win) := by
  refine ⟨fun h => ?_, fun h => ?_, fun lo hi => ?_⟩
  · simp [swapchain_new_extent, h]
  · simp [swapchain_new_extent, h]
  · rfl

/-- Claim C2, witness: the characterization applied to `capsSmallCurrent`,
whose current extent is defined. -/
theorem swapchain_extent_instance :
    swapchain_new_extent capsSmallCurrent (64, 64) = capsSmallCurrent.current_extent :=
  (swapchain_extent_characterization capsSmallCurrent (64, 64)).2.1 (by decide)

/-- `vk::Format::B8G8R8A8_UNORM` (code 44), not an sRGB format. -/
def formatBGRAUnorm : SurfaceFormatKHR := ⟨44, 0⟩

/-- `vk::Format::B8G8R8A8_SRGB` (code 50), an sRGB format. -/
def formatBGRASrgb : SurfaceFormatKHR := ⟨50, 0⟩

/-- Claim C5, counterexample: on the supported-format list
[B8G8R8A8_UNORM, B8G8R8A8_SRGB], the format actually used at swapchain
creation (vulkan_init.rs `swapchain_properties`, which takes
`surface_formats[0]` unconditionally) is the non-sRGB first element, while the
claimed rule — first sRGB format when one exists, as computed by the unused
helper `get_first_srgb_surface_format` — yields the sRGB second element. -/
theorem surface_format_ignores_srgb_preference :
    swapchain_properties_surface_format [formatBGRAUnorm, formatBGRASrgb] =
      some formatBGRAUnorm ∧
    get_first_srgb_surface_format is_format_srgb [formatBGRAUnorm, formatBGRASrgb] =
      some formatBGRASrgb ∧
    formatBGRAUnorm ≠ formatBGRASrgb := by
  decide

/-- Claim C5 (amended): the surface format chosen at swapchain creation is
unconditionally the first format of the queried list; the sRGB-preferring
helper `get_first_srgb_surface_format` exists but is not invoked there, and
the two selections are only guaranteed to agree when the first format is
itself sRGB. -/
theorem surface_format_first_element (f0 : SurfaceFormatKHR)
    (rest : List SurfaceFormatKHR) :
    swapchain_properties_surface_format (f0 :: rest) = some f0 ∧
    (is_format_srgb f0.format = true →
      get_first_srgb_surface_format is_format_srgb (f0 :: rest) = some f0) := by
  refine ⟨rfl, fun h => ?_⟩
  simp [get_first_srgb_surface_format, List.find?, h]

/-- Claim C5, witness: on a singleton sRGB list both selections return the
single element. -/
theorem surface_format_first_element_instance :
    get_first_srgb_surface_format is_format_srgb [formatBGRASrgb] =
      some formatBGRASrgb :=
  (surface_format_first_element formatBGRASrgb []).2 (by decide)

/-- Surface capabilities reporting the Vulkan "no maximum" sentinel
`max_image_count = 0` together with `min_image_count = 2`: a report every
conformant driver may produce for an unbounded swapchain. -/
def capsUnlimitedMax : SurfaceCapabilities :=
  { min_image_count := 2, max_image_count := 0,
    current_extent := ⟨640, 480⟩,
    min_image_extent := ⟨1, 1⟩,
    max_image_extent := ⟨4096, 4096⟩,
    supported_composite_alpha := 1 }

/-- Claim C6, counterexample: with the preferred count 2 (the double-buffering
constant) and a capability report of min = 2, max = 0 (Vulkan's "no limit"
sentinel), `Swapchain::new` computes `max(min(2, 0), 2) = 2`, which is not at
most the reported `max_image_count = 0`; the claimed clamp bound fails. -/
theorem image_count_exceeds_zero_max :
    swapchain_new_image_count MAX_FRAMES_IN_FLIGHT capsUnlimitedMax = 2 ∧
    ¬(swapchain_new_image_count MAX_FRAMES_IN_FLIGHT capsUnlimitedMax ≤
        capsUnlimitedMax.max_image_count) := by
  decide

/-- Claim C6 (amended): whenever the reported minimum image count is at most
the reported maximum, the chosen image count is the preferred count clamped
between them — at least the minimum, at most the maximum, and equal to the
preferred count whenever that lies within the range.  (When the report has
max < min, notably Vulkan's `max_image_count = 0` "no limit" sentinel, the
code returns the minimum, which exceeds the reported maximum.) -/
theorem image_count_clamps_when_range_valid (preferred : Nat)
    (caps : SurfaceCapabilities)
    (h : caps.min_image_count ≤ caps.max_image_count) :
    caps.min_image_count ≤ swapchain_new_image_count preferred caps ∧
    swapchain_new_image_count preferred caps ≤ caps.max_image_count ∧
    (caps.min_image_count ≤ preferred → preferred ≤ caps.max_image_count →
      swapchain_new_image_count preferred caps = preferred) := by
  unfold swapchain_new_image_count
  omega

/-- Claim C6, witness: the clamp characterization on a report with
min = 2 ≤ max = 8 and the preferred count 2 in range. -/
theorem image_count_clamps_instance :
    swapchain_new_image_count MAX_FRAMES_IN_FLIGHT capsOpqInherit =
      MAX_FRAMES_IN_FLIGHT :=
  (image_count_clamps_when_range_valid MAX_FRAMES_IN_FLIGHT capsOpqInherit
    (by decide)).2.2 (by decide) (by decide)

/-- Claim C3: when the early recreate branch is not taken (trigger unset, no
window resize) and acquiring the next swapchain image reports out-of-date,
`render_frame` goes directly to recreating the swapchain and skips the frame:
nothing is recorded, submitted or presented that iteration, the recreate
attempt happens, and the trigger ends up unset exactly when the recreation
succeeds (on failure the error is propagated with the trigger still set). -/
theorem render_frame_out_of_date_skips_frame (recreateOk : Bool)
    (flush : FlushResult) :
    (render_frame false false AcquireResult.outOfDate recreateOk flush).trace.recorded
        = false ∧
    (render_frame false false AcquireResult.outOfDate recreateOk flush).trace.submitted
        = false ∧
    (render_frame false false AcquireResult.outOfDate recreateOk flush).trace.presented
        = false ∧
    (render_frame false false AcquireResult.outOfDate recreateOk flush).trace.recreate_attempted
        = true ∧
    (render_frame false false AcquireResult.outOfDate recreateOk flush).recreate_swapchain
        = !recreateOk ∧
    (render_frame false false AcquireResult.outOfDate recreateOk flush).ok
        = recreateOk := by
  cases recreateOk <;> exact ⟨rfl, rfl, rfl, rfl, rfl, rfl⟩

/-- Unrolling of the `get_events` drain loop when the sender is connected: it
returns the accumulated events followed by the whole remaining queue, and
leaves the queue empty. -/
theorem get_events_loop_spec {ε : Type} (queue acc : List ε) :
    get_events_loop false acc queue = Except.ok (acc ++ queue, []) := by
  induction queue generalizing acc with
  | nil => simp [get_events_loop]
  | cons e rest ih => simp [get_events_loop, ih]

/-- Claim C4: for any sequence of events queued before a single drain (with
the sender still connected), `get_events` returns exactly that sequence in
arrival order — first received at index 0 — and leaves the queue empty; in
particular on an empty queue it returns the empty vector (the loop is a
non-blocking poll: it takes one `try_recv` step per queued event and stops at
`Empty`). -/
theorem get_events_drains_in_order {ε : Type} (queue : List ε) :
    get_events false queue = Except.ok (queue, []) := by
  simpa using get_events_loop_spec queue []

/-- Claim C7: provided wall-clock time progresses (the elapsed readings of the
polls are unbounded), the `stop_render_thread` wait loop terminates in every
case: it stops at the first poll whose exit condition holds — no earlier poll
satisfies it — where the exit condition is that the render thread's handle
reports finished or that the elapsed time exceeds the 2000 ms timeout
(`RENDER_THREAD_WAIT_TIMEOUT_SECONDS` = 2 s).  The loop reports `quit` exactly
when the handle reported finished at that poll, and whenever it instead
reports the logged hang condition (`timedOut`), the elapsed time at that poll
exceeded the timeout. -/
theorem stop_render_thread_terminates (obs : Nat → PollObs)
    (hu : ∀ n, ∃ i, n < (obs i).elapsed_millis) :
    ∃ hex : ∃ i, stopExit obs i,
      stopExit obs (stop_render_thread obs hex).1 ∧
      (∀ j, j < (stop_render_thread obs hex).1 → ¬ stopExit obs j) ∧
      ((stop_render_thread obs hex).2 = StopReason.quit ↔
        (obs (stop_render_thread obs hex).1).is_finished = true) ∧
      ((stop_render_thread obs hex).2 = StopReason.timedOut →
        timeout_millis < (obs (stop_render_thread obs hex).1).elapsed_millis) := by
  obtain ⟨i, hi⟩ := hu timeout_millis
  have hex : ∃ i, stopExit obs i := ⟨i, Or.inr hi⟩
  have hfst : (stop_render_thread obs hex).1 = Nat.find hex := rfl
  refine ⟨hex, ?_, ?_, ?_, ?_⟩
  · rw [hfst]
    exact Nat.find_spec hex
  · intro j hj
    rw [hfst] at hj
    exact Nat.find_min hex hj
  · rw [hfst]
    show (if (obs (Nat.find hex)).is_finished then StopReason.quit
          else StopReason.timedOut) = StopReason.quit ↔ _
    cases hfin : (obs (Nat.find hex)).is_finished <;> simp [hfin]
  · rw [hfst]
    show (if (obs (Nat.find hex)).is_finished then StopReason.quit
          else StopReason.timedOut) = StopReason.timedOut → _
    cases hfin : (obs (Nat.find hex)).is_finished with
    | true => intro hcontra; exact absurd hcontra (by simp)
    | false =>
      intro _
      have hspec := Nat.find_spec hex
      rcases hspec with hfin2 | helapsed
      · rw [hfin] at hfin2
        exact absurd hfin2 (by simp)
      · exact helapsed

/-- Observation stream of a hanging render thread: never finished, elapsed
time growing by 1000 ms per poll. -/
def obsLinear : Nat → PollObs :=
  fun i => { is_finished := false, elapsed_millis := 1000 * i }

/-- Claim C7, witness: the termination theorem applied to the hanging-thread
stream `obsLinear`; the loop's exit condition indeed holds at poll 3
(3000 ms > 2000 ms). -/
theorem stop_render_thread_terminates_instance : stopExit obsLinear 3 := by
  obtain ⟨hex, h1, -, -, -⟩ := stop_render_thread_terminates obsLinear
    (fun n => ⟨n + 1, by simp only [obsLinear]; omega⟩)
  have hfind : (stop_render_thread obsLinear hex).1 = 3 := by
    have h3 : Nat.find hex = 3 := by
      rw [Nat.find_eq_iff]
      refine ⟨Or.inr (by decide), ?_⟩
      intro j hj
      interval_cases j <;> decide
    exact h3
  rwa [hfind] at h1

/-- The drag-detection loop changes nothing when the cursor did not move. -/
theorem findDragLoop_no_move (st : CursorState) (l : List MouseButton) :
    st.findDragLoop false l = st := by
  induction l with
  | nil => rfl
  | cons b rest ih => simp [CursorState.findDragLoop, ih]

/-- Claim C8: in per-frame cursor processing the cursor counts as having moved
only when both the x and the y component of the position change since the
previous frame are nonzero.  Motion along exactly one axis (one component of
the change zero) never starts a drag — if nothing was dragging before the
frame, nothing is dragging after it — while with both components nonzero a
button held across both frames does start a drag (shown for the
highest-priority left button). -/
theorem single_axis_motion_never_starts_drag (st : CursorState)
    (hnone : st.which_dragging = none) :
    ((st.position.x - st.position_previous.x = 0 ∨
        st.position.y - st.position_previous.y = 0) →
      st.process_frame.which_dragging = none) ∧
    (st.position.x - st.position_previous.x ≠ 0 →
      st.position.y - st.position_previous.y ≠ 0 →
      st.is_pressed.left = true → st.is_pressed_previous.left = true →
      st.process_frame.which_dragging = some MouseButton.left) := by
  constructor
  · intro haxis
    have hmoved : ((st.position.x - st.position_previous.x != 0) &&
        (st.position.y - st.position_previous.y != 0)) = false := by
      rcases haxis with h | h <;> simp [h]
    simp [CursorState.process_frame, hnone, hmoved, findDragLoop_no_move]
  · intro hx hy hl hlp
    have hmoved : ((st.position.x - st.position_previous.x != 0) &&
        (st.position.y - st.position_previous.y != 0)) = true := by
      simp [hx, hy]
    simp [CursorState.process_frame, hnone, hmoved, CursorState.findDragLoop,
      MOUSE_BUTTONS, ButtonStates.get, hl, hlp]

/-- Cursor state with the left button held across two frames while the cursor
moved along the x axis only. -/
def cursorStateOneAxis : CursorState :=
  { in_window := true,
    position := ⟨1, 0⟩,
    position_previous := ⟨0, 0⟩,
    position_frame_change := ⟨0, 0⟩,
    is_pressed := ⟨true, false, false⟩,
    is_pressed_previous := ⟨true, false, false⟩,
    which_dragging := none,
    cursor_icon := .defaultIcon }

/-- Claim C8, witness: with the left button held through a pure x-axis motion
(change (1, 0)), no drag starts. -/
theorem single_axis_motion_instance :
    cursorStateOneAxis.process_frame.which_dragging = none :=
  (single_axis_motion_never_starts_drag cursorStateOneAxis rfl).1
    (Or.inr (by norm_num [cursorStateOneAxis]))

/-- Claim C9: `get_first_srgb_surface_format` is total exactly on non-empty
input, for every sRGB predicate: on a non-empty surface-format list it returns
an element of the list, and on the empty list the unconditional
`surface_formats[0]` indexing is out of bounds (`none` models the panic), so
callers must guarantee the surface reports at least one format. -/
theorem get_first_srgb_surface_format_totality (srgbP : Nat → Bool)
    (surface_formats : List SurfaceFormatKHR) :
    (surface_formats = [] →
      get_first_srgb_surface_format srgbP surface_formats = none) ∧
    (surface_formats ≠ [] →
      ∃ r, get_first_srgb_surface_format srgbP surface_formats = some r ∧
        r ∈ surface_formats) := by
  constructor
  · rintro rfl
    rfl
  · intro hne
    unfold get_first_srgb_surface_format
    cases hf : surface_formats.find? (fun f => srgbP f.format) with
    | some f => exact ⟨f, rfl, List.mem_of_find?_eq_some hf⟩
    | none =>
      obtain ⟨f0, rest, rfl⟩ := List.exists_cons_of_ne_nil hne
      exact ⟨f0, rfl, List.mem_cons_self _ _⟩

/-- Claim C9, witness: on the non-empty list [B8G8R8A8_UNORM] the function
returns its (only) element. -/
theorem get_first_srgb_surface_format_instance :
    get_first_srgb_surface_format is_format_srgb [formatBGRAUnorm] =
      some formatBGRAUnorm := by
  obtain ⟨r, hr, hmem⟩ :=
    (get_first_srgb_surface_format_totality is_format_srgb [formatBGRAUnorm]).2
      (by simp)
  simp only [List.mem_singleton] at hmem
  rwa [hmem] at hr

/-- Cursor state with no buttons pressed and nothing dragging. -/
def cursorStateIdle : CursorState :=
  { in_window := true,
    position := ⟨0, 0⟩,
    position_previous := ⟨0, 0⟩,
    position_frame_change := ⟨0, 0⟩,
    is_pressed := ⟨false, false, false⟩,
    is_pressed_previous := ⟨false, false, false⟩,
    which_dragging := none,
    cursor_icon := .defaultIcon }

/-- Claim C10: a mouse-button event processed while the cursor is captured by
the GUI (`cursor_captured = true`) has exactly the effect of a release — the
resulting state is identical whatever the element state was — and for every
supported button the button is recorded as not pressed, so a click consumed by
the GUI can never contribute to drag detection. -/
theorem captured_click_equals_release (st : CursorState)
    (winit_button : WinitMouseButton) (state : ElementState) :
    st.set_click_state winit_button state true =
      st.set_click_state winit_button ElementState.released true ∧
    (∀ b : MouseButton, MouseButton.from_winit winit_button = .ok b →
      (st.set_click_state winit_button state true).is_pressed.get b = false) := by
  constructor
  · cases winit_button <;> cases state <;> rfl
  · intro b hb
    cases winit_button <;>
      simp only [MouseButton.from_winit, Except.ok.injEq, reduceCtorEq] at hb <;>
      subst hb <;>
      simp [CursorState.set_click_state, MouseButton.from_winit,
        ButtonStates.set, ButtonStates.get]

/-- Claim C10, witness: a left-button press while the GUI captures the cursor
leaves the left button recorded as not pressed. -/
theorem captured_click_instance :
    (cursorStateIdle.set_click_state WinitMouseButton.left
      ElementState.pressed true).is_pressed.get MouseButton.left = false :=
  (captured_click_equals_release cursorStateIdle WinitMouseButton.left
    ElementState.pressed).2 MouseButton.left rfl

end Goshenite
